import Mathlib

/-!
# scanova: a client for the Scanova QR-code service

A shallow embedding of `scanova.go`.

Conventions of the embedding:

* a Go `string` and a Go `[]byte` are both written as a `String`, so the
  conversion `fmt.Sprintf("%s", slurp)` is the identity on contents;
* a Go `(T, error)` result is a pair of options, `none` standing for `nil`;
* a stream (`io.ReadCloser`) is a deterministic state machine over a state
  type `σ`; a method that mutates the receiver returns the new receiver;
* the read/write mutex of `Client` plays no role in a sequential run and is
  left out;
* a transport (`http.RoundTripper`) is written as the answer it gives to each
  request;
* a loop that may not finish (draining a body) takes fuel and returns
  `none` when the fuel runs out.
-/

namespace Scanova

/-! ## Errors, streams and the HTTP types the client touches -/

/-- A non-nil Go `error`: the sentinel `io.EOF`, a value made by
`errors.New`, or a `*url.Error`, in which `net/http` wraps what goes wrong
during a request. -/
inductive GoError where
  | EOF
  | New (msg : String)
  | URLError (Op : String) (URL : String) (Err : GoError)
deriving DecidableEq, Repr

/-- The `%q` rendering of a string without control characters: double quotes
around it, a backslash before each double quote and backslash. -/
def quote (s : String) : String :=
  String.mk (['"'] ++ s.toList.flatMap
    (fun c => if c = '"' ∨ c = '\\' then ['\\', c] else [c]) ++ ['"'])

/-- The `Error()` method. -/
def GoError.Error : GoError → String
  | .EOF => "EOF"
  | .New msg => msg
  | .URLError op url err => op ++ " " ++ quote url ++ ": " ++ err.Error

/-- An `io.ReadCloser`: the current state together with what `Read` (given
the length of the buffer) and `Close` do in a state. `Read` answers with the
bytes it stored in the buffer and its error. -/
structure ReadCloser (σ : Type) where
  state : σ
  read : σ → Nat → (String × Option GoError) × σ
  close : σ → Option GoError × σ

/-- Method call `rc.Read(b)` with `len(b) = n`. -/
def ReadCloser.Read {σ : Type} (rc : ReadCloser σ) (n : Nat) :
    (String × Option GoError) × ReadCloser σ :=
  ((rc.read rc.state n).1, { rc with state := (rc.read rc.state n).2 })

/-- Method call `rc.Close()`. -/
def ReadCloser.Close {σ : Type} (rc : ReadCloser σ) : Option GoError × ReadCloser σ :=
  ((rc.close rc.state).1, { rc with state := (rc.close rc.state).2 })

/-- Library model (`io/ioutil`): `ReadAll` reads until `Read` reports an error;
`io.EOF` is reported as success. `bufLen k` is the length of the buffer that is
offered once `k` bytes have been collected. -/
def ReadAll {σ : Type} (bufLen : Nat → Nat) :
    Nat → ReadCloser σ → String → Option ((String × Option GoError) × ReadCloser σ)
  | 0, _, _ => none
  | fuel + 1, rc, b =>
    match rc.Read (bufLen b.length) with
    | ((p, some GoError.EOF), rc') => some ((b ++ p, none), rc')
    | ((p, some e), rc') => some ((b ++ p, some e), rc')
    | ((p, none), rc') => ReadAll bufLen fuel rc' (b ++ p)

/-- The type `http.Header`. -/
abbrev Header := List (String × List String)

/-- The fields of `http.Response` that the client reads. -/
structure HTTPResponse (σ : Type) where
  Status : String
  StatusCode : Int
  Header : Header
  Body : ReadCloser σ

/-- The fields of `http.Request` that the client determines. -/
structure HTTPRequest where
  Method : String
  URL : String
deriving DecidableEq, Repr

/-- An `http.RoundTripper`: one round trip either fails or answers. -/
abbrev RoundTripper (σ : Type) := HTTPRequest → Except GoError (HTTPResponse σ)

/-- The type `http.Client`, of which only `Transport` is set. -/
structure HTTPClient (σ : Type) where
  Transport : RoundTripper σ

/-- What the Go runtime supplies: the global `http.DefaultTransport`, the
buffer growth policy of `ReadAll`, and the resolution of a `Location` against
the URL of the request it answers (`(*url.URL).Parse`). -/
structure Env (σ : Type) where
  DefaultTransport : RoundTripper σ
  bufLen : Nat → Nat
  resolveReference : String → String → Except GoError String

/-- Library model (`net/http`): `Header.Get`, the first value stored under
the key, or the empty string. -/
def Header.Get : Header → String → String
  | [], _ => ""
  | (k, vs) :: rest, key => if k = key then vs.headD "" else Header.Get rest key

/-- Library model (`net/http`): `redirectBehavior` for a GET request without
a body, which is redirected on the statuses 301, 302, 303, 307 and 308. -/
def redirectBehavior (code : Int) : Bool :=
  decide (code = 301) || decide (code = 302) || decide (code = 303) ||
    decide (code = 307) || decide (code = 308)

/-- Library model (`net/http`): the loop of `(*Client).do` with the default
redirect policy, from the request `req` on, while `left` more requests may
follow it. A failed round trip comes back wrapped in a `*url.Error`. A
response with a redirect status and a `Location` is followed by a request
for the resolved location with the same method; after ten requests the
policy stops with an error. Any other response is handed to the caller. -/
def HTTPClient.doFrom {σ : Type} (env : Env σ) (h : HTTPClient σ) :
    Nat → HTTPRequest → Except GoError (HTTPResponse σ)
  | left, req =>
    match h.Transport req with
    | .error err => .error (.URLError "Get" req.URL err)
    | .ok resp =>
      if redirectBehavior resp.StatusCode = true ∧ Header.Get resp.Header "Location" ≠ "" then
        match env.resolveReference req.URL (Header.Get resp.Header "Location") with
        | .error err =>
          .error (.URLError "Get" req.URL
            (.New ("failed to parse Location header " ++
              quote (Header.Get resp.Header "Location") ++ ": " ++ err.Error)))
        | .ok u =>
          match left with
          | 0 =>
            .error (.URLError "Get" (Header.Get resp.Header "Location")
              (.New "stopped after 10 redirects"))
          | n + 1 => HTTPClient.doFrom env h n { Method := req.Method, URL := u }
      else .ok resp

/-- Library model (`net/http`): `Get` issues a GET request for the URL and
follows up to nine redirects, ten requests in all; either an error or a
response comes back. The URL that `NewQR` builds always parses, so the
parsing of the URL is left out. -/
def HTTPClient.Get {σ : Type} (env : Env σ) (h : HTTPClient σ) (url : String) :
    Except GoError (HTTPResponse σ) :=
  h.doFrom env 9 { Method := "GET", URL := url }

/-! ## Types of scanova.go -/

/-- Source: `type Client struct`. A nil `rt` is `none`. -/
structure Client (σ : Type) where
  apiKey : String
  rt : Option (RoundTripper σ)

/-- Source: `type Level string`. -/
abbrev Level := String

def LevelL : Level := "L"
def LevelM : Level := "M"
def LevelH : Level := "H"
def LevelQ : Level := "Q"

/-- Source: `type Size string`. -/
abbrev Size := String

def SmallSize : Size := "s"
def MediumSize : Size := "m"
def LargeSize : Size := "l"
def XLSize : Size := "xl"
def XXLSize : Size := "xxl"
def XXXLSize : Size := "xxxl"

/-- Source: `type Response struct`. -/
structure Response (σ : Type) where
  rc : ReadCloser σ
  headers : Header

/-- Source: `func (r *Response) Read`. -/
def Response.Read {σ : Type} (r : Response σ) (n : Nat) :
    (String × Option GoError) × Response σ :=
  ((r.rc.Read n).1, { r with rc := (r.rc.Read n).2 })

/-- Source: `func (r *Response) Headers`. -/
def Response.Headers {σ : Type} (r : Response σ) : Header := r.headers

/-- Source: `func (r *Response) Close`. -/
def Response.Close {σ : Type} (r : Response σ) : Option GoError × Response σ :=
  ((r.rc.Close).1, { r with rc := (r.rc.Close).2 })

/-- Source: `var _ io.ReadCloser = (*Response)(nil)`: a Response is itself a
stream, whose methods are `Response.Read` and `Response.Close`. -/
def Response.toReadCloser {σ : Type} (r : Response σ) : ReadCloser (Response σ) :=
  { state := r, read := fun s n => s.Read n, close := fun s => s.Close }

/-- A `float32` as an encoder observes it: whether it is the zero value, and
its `%v` rendering. -/
structure GoFloat32 where
  isZero : Bool
  format : String
deriving DecidableEq, Repr

/-- Source: `type Logo struct`. -/
structure Logo where
  URL : String
  PercentSize : GoFloat32
  Angle : GoFloat32
  Excavated : Bool
deriving DecidableEq, Repr

/-- Source: `type EyeShape string`. -/
abbrev EyeShape := String

def RoundRect : EyeShape := "ROUND_RECT"
def RectRect : EyeShape := "RECT_RECT"
def RectCircle : EyeShape := "RECT_CIRC"
def RoundRectangularCircle : EyeShape := "ROUNDRECT_CIRC"
def CircularCircle : EyeShape := "CIRC_CIRC"
def BRLeaf : EyeShape := "BR_LEAF"
def TRLeaf : EyeShape := "TR_LEAF"
def BLLeaf : EyeShape := "BL_LEAF"
def TLLeaf : EyeShape := "TL_LEAF"
def TLBRLeaf : EyeShape := "TRBR_LEAF"
def TLBLLeaf : EyeShape := "TRBL_LEAF"
def TLBRLeafCircle : EyeShape := "TRBL_LEAF_CIRC"
def TRBLLeafDIAD : EyeShape := "TRBL_LEAF_DIAD"
def RectDIAD : EyeShape := "RECT_DIAD"
def UniLeaf : EyeShape := "UNI_LEAF"
def BloatRect : EyeShape := "BLOAT_RECT"
def WarpRect0 : EyeShape := "WARP_RECT0"
def CurveRect : EyeShape := "CURVE_RECT"
def DistRect : EyeShape := "DIST_RECT"
def ZigZag : EyeShape := "ZIGZAG"
def WarpRect1 : EyeShape := "WARP_RECT1"
def BlackHole : EyeShape := "BLACK_HOLE"
def Star : EyeShape := "STAR"
def Grid : EyeShape := "GRID"
def Scion : EyeShape := "SCION"
def Octagon : EyeShape := "OCTAGON"
def Flower : EyeShape := "FLOWER"
def Hut : EyeShape := "HUT"
def DarkHut : EyeShape := "DARK_HUT"

/-- Source: `type Request struct`. A nil `Logo` is `none`. -/
structure Request where
  URL : String
  Logo : Option Logo
  Size : Size
  ErrorCorrection : Level
  EyePattern : EyeShape
  DataGradientStyle : String
  InnerEyeColor : String
  OuterEyeColor : String
  BackgroundColor : String
  DataGradientStartColor : String
deriving DecidableEq, Repr

/-! ## Struct tags -/

/-- A parsed `json:"name,omitempty"` struct tag. -/
structure Tag where
  name : String
  omitempty : Bool
deriving DecidableEq, Repr

/-- The value of a field of basic type. -/
inductive Scalar where
  | str (s : String)
  | num (x : GoFloat32)
  | bool (b : Bool)
deriving DecidableEq, Repr

/-- Whether the value is the zero value of its type. -/
def Scalar.isZero : Scalar → Bool
  | .str s => decide (s = "")
  | .num x => x.isZero
  | .bool b => !b

/-- The `%v` rendering of the value. -/
def Scalar.format : Scalar → String
  | .str s => s
  | .num x => x.format
  | .bool b => if b then "true" else "false"

/-- The value of a field of `Request`: of basic type, or a pointer to a
struct given by its own tagged fields. -/
inductive FieldValue where
  | scalar (x : Scalar)
  | structPtr (p : Option (List (Tag × Scalar)))
deriving Repr

/-- Source: the tagged fields of `type Logo struct`, in declaration order. -/
def Logo.fields (l : Logo) : List (Tag × Scalar) :=
  [ ({ name := "url", omitempty := false }, .str l.URL),
    ({ name := "size", omitempty := true }, .num l.PercentSize),
    ({ name := "angle", omitempty := true }, .num l.Angle),
    ({ name := "excavated", omitempty := false }, .bool l.Excavated) ]

/-- Source: the tagged fields of `type Request struct`, in declaration order.
`InnerEyeColor` and `OuterEyeColor` carry the same tag name. -/
def Request.fields (r : Request) : List (Tag × FieldValue) :=
  [ ({ name := "url", omitempty := true }, .scalar (.str r.URL)),
    ({ name := "logo", omitempty := true }, .structPtr (r.Logo.map Logo.fields)),
    ({ name := "size", omitempty := true }, .scalar (.str r.Size)),
    ({ name := "error_correction", omitempty := true }, .scalar (.str r.ErrorCorrection)),
    ({ name := "eye_pattern", omitempty := true }, .scalar (.str r.EyePattern)),
    ({ name := "data_gradient_style", omitempty := true }, .scalar (.str r.DataGradientStyle)),
    ({ name := "eye_color_inner", omitempty := true }, .scalar (.str r.InnerEyeColor)),
    ({ name := "eye_color_inner", omitempty := true }, .scalar (.str r.OuterEyeColor)),
    ({ name := "background_color", omitempty := true }, .scalar (.str r.BackgroundColor)),
    ({ name := "data_gradient_start_color", omitempty := true },
      .scalar (.str r.DataGradientStartColor)) ]

/-! ## URL query values -/

/-- The type `url.Values`: each key with its values, in the order the keys
were first added. -/
abbrev Values := List (String × List String)

/-- Library model (`net/url`): `v[key]`, empty when the key is absent. -/
def Values.lookup : Values → String → List String
  | [], _ => []
  | (k, vs) :: rest, key => if k = key then vs else Values.lookup rest key

/-- Library model (`net/url`): whether the key is present in the map. -/
def Values.Has (v : Values) (key : String) : Bool :=
  v.any (fun kv => decide (kv.1 = key))

/-- Library model (`net/url`): `Add` appends the value to the values of the
key. -/
def Values.Add : Values → String → String → Values
  | [], key, value => [(key, [value])]
  | (k, vs) :: rest, key, value =>
    if k = key then (k, vs ++ [value]) :: rest
    else (k, vs) :: Values.Add rest key value

/-- The digit of a value below sixteen, in upper-case hexadecimal. -/
def upperhex (n : Nat) : Char :=
  ("0123456789ABCDEF".toList).getD n '0'

/-- The UTF-8 bytes of a code point. -/
def utf8Bytes (n : Nat) : List Nat :=
  if n < 128 then [n]
  else if n < 2048 then [192 + n / 64, 128 + n % 64]
  else if n < 65536 then [224 + n / 4096, 128 + n / 64 % 64, 128 + n % 64]
  else [240 + n / 262144, 128 + n / 4096 % 64, 128 + n / 64 % 64, 128 + n % 64]

/-- Library model (`net/url`): `shouldEscape` in query-component mode. Letters,
digits and the marks `-`, `_`, `.`, `~` are kept. -/
def shouldEscape (c : Char) : Bool :=
  !(c.isAlphanum || c = '-' || c = '_' || c = '.' || c = '~')

/-- The escape of one character: itself, `+` for a space, or `%XX` for each
of its bytes. -/
def escapeChar (c : Char) : List Char :=
  if c = ' ' then ['+']
  else if shouldEscape c then
    (utf8Bytes c.toNat).flatMap (fun b => ['%', upperhex (b / 16), upperhex (b % 16)])
  else [c]

/-- Library model (`net/url`): `QueryEscape`. -/
def QueryEscape (s : String) : String :=
  String.mk (s.toList.flatMap escapeChar)

/-- The order of Go strings, bytewise lexicographic; on UTF-8 text that is the
lexicographic order of the code points. -/
def strLess : List Char → List Char → Bool
  | _, [] => false
  | [], _ :: _ => true
  | a :: as, b :: bs =>
    if a.toNat < b.toNat then true
    else if b.toNat < a.toNat then false
    else strLess as bs

/-- Insertion of a key into a list of keys in increasing order. -/
def insertKey (k : String) : List String → List String
  | [] => [k]
  | x :: xs => if strLess k.toList x.toList then k :: x :: xs else x :: insertKey k xs

/-- The effect of `sort.Strings` on the keys. -/
def sortKeys (ks : List String) : List String :=
  ks.foldr insertKey []

/-- Library model (`net/url`): `Encode` writes `key=value` for every value of
every key, the keys in increasing order, joined by `&`. -/
def Values.Encode (v : Values) : String :=
  "&".intercalate
    ((sortKeys (v.map Prod.fst)).flatMap
      (fun k => (Values.lookup v k).map (fun x => QueryEscape k ++ "=" ++ QueryEscape x)))

/-! ## The parameter encoder -/

/-- Modelled from the spec: the step of `otils.ToURLValues` for one field of
basic type, left out when its tag says `omitempty` and the value is the zero
value ("omitted from serialization when unset"), added under its tag name
otherwise. -/
def addScalar (v : Values) (t : Tag) (x : Scalar) : Values :=
  if t.omitempty && x.isZero then v else Values.Add v t.name x.format

/-- Modelled from the spec: the step of `otils.ToURLValues` for one field of
the request. A basic value is added under its tag; a nil struct pointer adds
nothing; the fields of a struct are added to the same values under their own
tags ("flattening Logo's fields under the same flat namespace"). -/
def addField (v : Values) (t : Tag) : FieldValue → Values
  | .scalar x => addScalar v t x
  | .structPtr none => v
  | .structPtr (some fs) => fs.foldl (fun acc f => addScalar acc f.1 f.2) v

/-- Modelled from the spec: `otils.ToURLValues`, a function of the package
`github.com/orijtech/otils`, whose source is not part of the repository.
The spec (4.1 Parameter Encoder): the request becomes a flat set of query
key/value pairs, one key per non-empty field, under the tag name of the
field; numeric fields are included only when non-zero; the fields of a Logo
are flattened into the same namespace and are absent when the Logo is
omitted; it fails only when the value can not be introspected, which is the
nil request here. -/
def ToURLValues (req : Option Request) : Values × Option GoError :=
  match req with
  | none => ([], some (GoError.New "invalid value"))
  | some r => (r.fields.foldl (fun acc f => addField acc f.1 f.2) [], none)

/-! ## The client -/

/-- Source: `var baseURL`. -/
def baseURL : String := "https://api.scanova.io/v2"

/-- Source: `func statusOK`. -/
def statusOK (code : Int) : Bool := decide (code ≥ 200) && decide (code ≤ 299)

/-- Source: `func (c *Client) SetHTTPRoundTripper`. -/
def Client.SetHTTPRoundTripper {σ : Type} (c : Client σ) (rt : Option (RoundTripper σ)) :
    Client σ :=
  { c with rt := rt }

/-- Source: `func (c *Client) httpClient`. -/
def Client.httpClient {σ : Type} (env : Env σ) (c : Client σ) : HTTPClient σ :=
  match c.rt with
  | none => { Transport := env.DefaultTransport }
  | some rt => { Transport := rt }

/-- Source: `func NewClient`. -/
def NewClient (σ : Type) : Option (Client σ) × Option GoError :=
  (some { apiKey := "", rt := none }, none)

/-- Source: `func (c *Client) NewQR`. The outer option is `none` when the
body of a failed response is not drained within the fuel. -/
def Client.NewQR {σ : Type} (env : Env σ) (fuel : Nat) (c : Client σ) (req : Option Request) :
    Option (Option (Response σ) × Option GoError) :=
  match ToURLValues req with
  | (_, some err) => some (none, some err)
  | (urlValues, none) =>
    let fullURL := baseURL ++ "/qrcode/url?" ++ urlValues.Encode
    match (c.httpClient env).Get env fullURL with
    | .error err => some (none, some err)
    | .ok res =>
      if !statusOK res.StatusCode then
        match ReadAll env.bufLen fuel res.Body "" with
        | none => none
        | some ((slurp, _), _) =>
          let errMsg := if slurp.length > 0 then slurp else res.Status
          some (none, some (GoError.New errMsg))
      else
        some (some { rc := res.Body, headers := res.Header }, none)

/-! ## Transport stubs -/

/-- The state of a stub body: the bytes not yet read, and whether `Close` was
called. -/
structure StubState where
  rest : String
  closed : Bool
deriving DecidableEq, Repr

/-- A stream in the manner of `ioutil.NopCloser(strings.NewReader(b))`, in a
given state: `Read` hands out the next bytes that fit in the buffer, `io.EOF`
once none is left, and `Close` does nothing to reading. -/
def nopCloserFrom (s : StubState) : ReadCloser StubState :=
  { state := s
    read := fun s n =>
      if s.rest.length = 0 then (("", some GoError.EOF), s)
      else ((String.mk (s.rest.toList.take n), none),
            { s with rest := String.mk (s.rest.toList.drop n) })
    close := fun s => (none, { s with closed := true }) }

/-- A fresh body of that kind with content `b`. -/
def nopCloserBody (b : String) : ReadCloser StubState :=
  nopCloserFrom { rest := b, closed := false }

/-- A fresh body in the manner of the bodies of `net/http`: as
`nopCloserBody`, but a `Read` after `Close` fails. -/
def strictBody (b : String) : ReadCloser StubState :=
  { state := { rest := b, closed := false }
    read := fun s n =>
      if s.closed then (("", some (GoError.New "http: read on closed response body")), s)
      else if s.rest.length = 0 then (("", some GoError.EOF), s)
      else ((String.mk (s.rest.toList.take n), none),
            { s with rest := String.mk (s.rest.toList.drop n) })
    close := fun s => (none, { s with closed := true }) }

/-- A transport stub that answers every request with the given status, headers
and body. -/
def stubTransport (status : String) (code : Int) (h : Header) (b : String) :
    RoundTripper StubState :=
  fun _ => .ok { Status := status, StatusCode := code, Header := h, Body := nopCloserBody b }

/-- A transport stub that fails every round trip. -/
def failingTransport (msg : String) : RoundTripper StubState :=
  fun _ => .error (GoError.New msg)

/-- A transport stub that answers 200 and reports the method and the URL it
was asked for in a header. -/
def echoTransport : RoundTripper StubState :=
  fun r => .ok { Status := "200 OK", StatusCode := 200,
                 Header := [("X-Request", [r.Method, r.URL])], Body := nopCloserBody "" }

/-- A transport stub that answers every request with 302, a `Location` and
the body `moved`. -/
def redirectTransport (loc : String) : RoundTripper StubState :=
  fun _ => .ok { Status := "302 Found", StatusCode := 302, Header := [("Location", [loc])],
                 Body := nopCloserBody "moved" }

/-- A transport stub that answers 200 with the given body at the URL `loc` and
redirects every other request there. -/
def hopTransport (loc : String) (b : String) : RoundTripper StubState :=
  fun r =>
    if r.URL = loc then
      .ok { Status := "200 OK", StatusCode := 200, Header := [], Body := nopCloserBody b }
    else
      .ok { Status := "302 Found", StatusCode := 302, Header := [("Location", [loc])],
            Body := nopCloserBody "moved" }

/-- A runtime for the stubs: the default transport answers 503; buffers hold
512 bytes; every `Location` is taken as an absolute URL. -/
def stubEnv : Env StubState :=
  { DefaultTransport := stubTransport "503 Service Unavailable" 503 [] "",
    bufLen := fun _ => 512,
    resolveReference := fun _ loc => .ok loc }

/-- The results of consecutive `Read` calls on a Response, one call per
buffer length in the list. -/
def readMany {σ : Type} (r : Response σ) : List Nat → List (String × Option GoError)
  | [] => []
  | n :: ns => (r.Read n).1 :: readMany (r.Read n).2 ns

/-- A client whose transport is the given stub. -/
def stubClient (rt : RoundTripper StubState) : Client StubState :=
  { apiKey := "", rt := some rt }

/-- A request with only the URL set. -/
def urlOnlyRequest : Request :=
  { URL := "https://github.com/orijtech/scanova", Logo := none, Size := "",
    ErrorCorrection := "", EyePattern := "", DataGradientStyle := "",
    InnerEyeColor := "", OuterEyeColor := "", BackgroundColor := "",
    DataGradientStartColor := "" }

/-- A request with both eye colours and a logo set. -/
def colourRequest : Request :=
  { URL := "https://github.com/orijtech/scanova",
    Logo := some { URL := "https://example.org/logo.png",
                   PercentSize := { isZero := false, format := "25" },
                   Angle := { isZero := true, format := "0" }, Excavated := true },
    Size := MediumSize, ErrorCorrection := LevelH, EyePattern := Star, DataGradientStyle := "",
    InnerEyeColor := "red", OuterEyeColor := "blue", BackgroundColor := "",
    DataGradientStartColor := "" }

/-- A request with the size XL and a logo of 25 percent. -/
def logoSizeRequest : Request :=
  { URL := "https://github.com/orijtech/scanova",
    Logo := some { URL := "https://example.org/logo.png",
                   PercentSize := { isZero := false, format := "25" },
                   Angle := { isZero := true, format := "0" }, Excavated := false },
    Size := XLSize, ErrorCorrection := "", EyePattern := "", DataGradientStyle := "",
    InnerEyeColor := "", OuterEyeColor := "", BackgroundColor := "",
    DataGradientStartColor := "" }

/-- The declared `Size` constants, each with the string the spec documents. -/
def sizeConstants : List (Size × String) :=
  [(SmallSize, "s"), (MediumSize, "m"), (LargeSize, "l"), (XLSize, "xl"), (XXLSize, "xxl"),
   (XXXLSize, "xxxl")]

/-- The declared `Level` constants, each with the string the spec documents. -/
def levelConstants : List (Level × String) :=
  [(LevelL, "L"), (LevelM, "M"), (LevelH, "H"), (LevelQ, "Q")]

/-- The declared `EyeShape` constants, each with the string of its
declaration. -/
def eyeShapeConstants : List (EyeShape × String) :=
  [(RoundRect, "ROUND_RECT"), (RectRect, "RECT_RECT"), (RectCircle, "RECT_CIRC"),
   (RoundRectangularCircle, "ROUNDRECT_CIRC"), (CircularCircle, "CIRC_CIRC"),
   (BRLeaf, "BR_LEAF"), (TRLeaf, "TR_LEAF"), (BLLeaf, "BL_LEAF"), (TLLeaf, "TL_LEAF"),
   (TLBRLeaf, "TRBR_LEAF"), (TLBLLeaf, "TRBL_LEAF"), (TLBRLeafCircle, "TRBL_LEAF_CIRC"),
   (TRBLLeafDIAD, "TRBL_LEAF_DIAD"), (RectDIAD, "RECT_DIAD"), (UniLeaf, "UNI_LEAF"),
   (BloatRect, "BLOAT_RECT"), (WarpRect0, "WARP_RECT0"), (CurveRect, "CURVE_RECT"),
   (DistRect, "DIST_RECT"), (ZigZag, "ZIGZAG"), (WarpRect1, "WARP_RECT1"),
   (BlackHole, "BLACK_HOLE"), (Star, "STAR"), (Grid, "GRID"), (Scion, "SCION"),
   (Octagon, "OCTAGON"), (Flower, "FLOWER"), (Hut, "HUT"), (DarkHut, "DARK_HUT")]

/-- The request of the example test of the repository. -/
def exampleRequest : Request :=
  { URL := "https://github.com/orijtech/scanova", Logo := none, Size := LargeSize,
    ErrorCorrection := LevelQ, EyePattern := CircularCircle, DataGradientStyle := "",
    InnerEyeColor := "", OuterEyeColor := "", BackgroundColor := "",
    DataGradientStartColor := "" }

/-! ## Facts about `url.Values` -/

theorem lookup_Add (v : Values) (k x k' : String) :
    Values.lookup (Values.Add v k x) k' =
      if k = k' then Values.lookup v k' ++ [x] else Values.lookup v k' := by
  induction v with
  | nil =>
    by_cases h : k = k' <;> simp [Values.Add, Values.lookup, h]
  | cons kv rest ih =>
    obtain ⟨k0, vs⟩ := kv
    by_cases h0 : k0 = k
    · subst h0
      by_cases h : k0 = k' <;> simp [Values.Add, Values.lookup, h]
    · by_cases h1 : k0 = k'
      · subst h1
        have h2 : ¬ k = k0 := fun e => h0 e.symm
        simp [Values.Add, Values.lookup, h0, h2]
      · simp [Values.Add, Values.lookup, h0, h1, ih]

theorem Has_Add (v : Values) (k x k' : String) :
    Values.Has (Values.Add v k x) k' = (decide (k = k') || Values.Has v k') := by
  induction v with
  | nil => simp [Values.Add, Values.Has]
  | cons kv rest ih =>
    obtain ⟨k0, vs⟩ := kv
    unfold Values.Has at ih ⊢
    unfold Values.Add
    split
    · rename_i h0
      subst h0
      simp only [List.any_cons]
      cases decide (k0 = k') <;> rfl
    · simp only [List.any_cons, ih]
      cases decide (k0 = k') <;> cases decide (k = k') <;> rfl

theorem Has_nil (k : String) : Values.Has [] k = false := rfl

theorem lookup_addScalar (v : Values) (t : Tag) (x : Scalar) (k' : String) :
    Values.lookup (addScalar v t x) k' =
      if (t.omitempty && x.isZero) = true then Values.lookup v k'
      else if t.name = k' then Values.lookup v k' ++ [x.format] else Values.lookup v k' := by
  unfold addScalar
  split
  · rfl
  · exact lookup_Add v t.name x.format k'

theorem Has_addScalar (v : Values) (t : Tag) (x : Scalar) (k' : String) :
    Values.Has (addScalar v t x) k' =
      if (t.omitempty && x.isZero) = true then Values.Has v k'
      else (decide (t.name = k') || Values.Has v k') := by
  unfold addScalar
  split
  · rfl
  · exact Has_Add v t.name x.format k'

/-! ## The parameter encoder on a request -/

theorem lookup_size (r : Request) :
    Values.lookup (ToURLValues (some r)).1 "size" =
      (match r.Logo with
        | none => []
        | some l => if l.PercentSize.isZero = true then [] else [l.PercentSize.format]) ++
      (if r.Size = "" then [] else [r.Size]) := by
  cases hL : r.Logo <;>
  simp [ToURLValues, Request.fields, addField, lookup_addScalar, Scalar.isZero, Scalar.format,
    Values.lookup, hL, Logo.fields]
  all_goals split_ifs <;> simp

theorem lookup_error_correction (r : Request) :
    Values.lookup (ToURLValues (some r)).1 "error_correction" =
      if r.ErrorCorrection = "" then [] else [r.ErrorCorrection] := by
  cases hL : r.Logo <;>
  simp [ToURLValues, Request.fields, addField, lookup_addScalar, Scalar.isZero, Scalar.format,
    Values.lookup, hL, Logo.fields]

theorem lookup_eye_pattern (r : Request) :
    Values.lookup (ToURLValues (some r)).1 "eye_pattern" =
      if r.EyePattern = "" then [] else [r.EyePattern] := by
  cases hL : r.Logo <;>
  simp [ToURLValues, Request.fields, addField, lookup_addScalar, Scalar.isZero, Scalar.format,
    Values.lookup, hL, Logo.fields]

theorem lookup_eye_color_inner (r : Request) :
    Values.lookup (ToURLValues (some r)).1 "eye_color_inner" =
      (if r.InnerEyeColor = "" then [] else [r.InnerEyeColor]) ++
      (if r.OuterEyeColor = "" then [] else [r.OuterEyeColor]) := by
  cases hL : r.Logo <;>
  simp [ToURLValues, Request.fields, addField, lookup_addScalar, Scalar.isZero, Scalar.format,
    Values.lookup, hL, Logo.fields] <;>
  split_ifs <;> simp

theorem Has_eye_color_inner (r : Request) :
    Values.Has (ToURLValues (some r)).1 "eye_color_inner" =
      (decide (r.InnerEyeColor ≠ "") || decide (r.OuterEyeColor ≠ "")) := by
  cases hL : r.Logo <;>
  simp [ToURLValues, Request.fields, addField, Has_addScalar, Scalar.isZero, Scalar.format,
    Has_nil, hL, Logo.fields] <;>
  exact Bool.or_comm _ _

theorem ToURLValues_only_URL (r : Request) (hURL : r.URL ≠ "") (hLogo : r.Logo = none)
    (hSize : r.Size = "") (hEC : r.ErrorCorrection = "") (hEye : r.EyePattern = "")
    (hDGS : r.DataGradientStyle = "") (hIn : r.InnerEyeColor = "")
    (hOut : r.OuterEyeColor = "") (hBg : r.BackgroundColor = "")
    (hDG : r.DataGradientStartColor = "") :
    ToURLValues (some r) = ([("url", [r.URL])], none) := by
  simp [ToURLValues, Request.fields, addField, addScalar, Scalar.isZero, Scalar.format,
    Values.Add, hURL, hLogo, hSize, hEC, hEye, hDGS, hIn, hOut, hBg, hDG]

theorem sizeConstants_declared :
    ∀ p ∈ sizeConstants, p.1 = p.2 ∧ p.2 ≠ "" := by decide

theorem levelConstants_declared :
    ∀ p ∈ levelConstants, p.1 = p.2 ∧ p.2 ≠ "" := by decide

theorem eyeShapeConstants_declared :
    ∀ p ∈ eyeShapeConstants, p.1 = p.2 ∧ p.2 ≠ "" := by decide

/-! ## Claims about the parameter encoder -/

/-- C4. A request with only the URL set (every other field at its zero
value, the Logo nil) is serialized to query values that contain the key
`url`, carrying the URL, and none of the optional keys `logo`, `size`,
`error_correction`, `eye_pattern`, `data_gradient_style`, `eye_color_inner`,
`background_color`, `data_gradient_start_color`. -/
theorem only_URL_omits_optional_keys (r : Request) (hURL : r.URL ≠ "")
    (hLogo : r.Logo = none) (hSize : r.Size = "") (hEC : r.ErrorCorrection = "")
    (hEye : r.EyePattern = "") (hDGS : r.DataGradientStyle = "")
    (hIn : r.InnerEyeColor = "") (hOut : r.OuterEyeColor = "")
    (hBg : r.BackgroundColor = "") (hDG : r.DataGradientStartColor = "") :
    (ToURLValues (some r)).2 = none ∧
    Values.Has (ToURLValues (some r)).1 "url" = true ∧
    Values.lookup (ToURLValues (some r)).1 "url" = [r.URL] ∧
    Values.Has (ToURLValues (some r)).1 "logo" = false ∧
    Values.Has (ToURLValues (some r)).1 "size" = false ∧
    Values.Has (ToURLValues (some r)).1 "error_correction" = false ∧
    Values.Has (ToURLValues (some r)).1 "eye_pattern" = false ∧
    Values.Has (ToURLValues (some r)).1 "data_gradient_style" = false ∧
    Values.Has (ToURLValues (some r)).1 "eye_color_inner" = false ∧
    Values.Has (ToURLValues (some r)).1 "background_color" = false ∧
    Values.Has (ToURLValues (some r)).1 "data_gradient_start_color" = false ∧
    (ToURLValues (some r)).1.map Prod.fst = ["url"] := by
  rw [ToURLValues_only_URL r hURL hLogo hSize hEC hEye hDGS hIn hOut hBg hDG]
  simp [Values.Has, Values.lookup]

theorem only_URL_omits_optional_keys_witness :
    (ToURLValues (some urlOnlyRequest)).1.map Prod.fst = ["url"] :=
  (only_URL_omits_optional_keys urlOnlyRequest
    (by decide) rfl rfl rfl rfl rfl rfl rfl rfl rfl).2.2.2.2.2.2.2.2.2.2.2

/-- C5, as stated, fails for `Size`: a request with the declared constant
XLSize and a Logo of 25 percent is serialized with two values under the key
`size`, the size of the logo and then `xl`, so the key does not carry exactly
the documented string. -/
theorem size_key_shared_with_Logo :
    logoSizeRequest.Size = XLSize ∧
    Values.lookup (ToURLValues (some logoSizeRequest)).1 "size" = ["25", "xl"] ∧
    Values.lookup (ToURLValues (some logoSizeRequest)).1 "size" ≠ ["xl"] := by
  decide

/-- C5, amended. Setting an enum field of any request to a declared constant
puts the documented string under the key of the field: every `Level` constant
makes `error_correction` carry exactly L, M, H, Q, every `EyeShape` constant
makes `eye_pattern` carry exactly its declared string, and every `Size`
constant makes `size` carry s, m, l, xl, xxl, xxxl as the value of the Size
field, which is the only value under `size` unless the request has a Logo
with a non-zero PercentSize; the rendering of that PercentSize is serialized
under the same key, before it. -/
theorem enum_constant_serialized (r : Request) :
    (∀ p ∈ sizeConstants,
      Values.lookup (ToURLValues (some { r with Size := p.1 })).1 "size" =
        (match r.Logo with
          | none => []
          | some l => if l.PercentSize.isZero = true then [] else [l.PercentSize.format]) ++
        [p.2]) ∧
    (∀ p ∈ sizeConstants,
      (r.Logo = none ∨ ∃ l, r.Logo = some l ∧ l.PercentSize.isZero = true) →
      Values.lookup (ToURLValues (some { r with Size := p.1 })).1 "size" = [p.2]) ∧
    (∀ p ∈ levelConstants,
      Values.lookup (ToURLValues (some { r with ErrorCorrection := p.1 })).1
        "error_correction" = [p.2]) ∧
    (∀ p ∈ eyeShapeConstants,
      Values.lookup (ToURLValues (some { r with EyePattern := p.1 })).1 "eye_pattern" = [p.2]) := by
  have hsize : ∀ p ∈ sizeConstants,
      Values.lookup (ToURLValues (some { r with Size := p.1 })).1 "size" =
        (match r.Logo with
          | none => []
          | some l => if l.PercentSize.isZero = true then [] else [l.PercentSize.format]) ++
        [p.2] := by
    intro p hp
    obtain ⟨h1, h2⟩ := sizeConstants_declared p hp
    rw [lookup_size]
    simp [h1, h2]
  refine ⟨hsize, fun p hp hL => ?_, fun p hp => ?_, fun p hp => ?_⟩
  · rw [hsize p hp]
    rcases hL with hL | ⟨l, hL, hz⟩
    · simp [hL]
    · simp [hL, hz]
  · obtain ⟨h1, h2⟩ := levelConstants_declared p hp
    rw [lookup_error_correction]
    simp [h1, h2]
  · obtain ⟨h1, h2⟩ := eyeShapeConstants_declared p hp
    rw [lookup_eye_pattern]
    simp [h1, h2]

theorem enum_constant_serialized_witness :
    Values.lookup (ToURLValues (some { exampleRequest with Size := XXLSize })).1 "size" = ["xxl"] ∧
    Values.lookup (ToURLValues (some { colourRequest with Size := XXXLSize })).1 "size" =
      ["25", "xxxl"] ∧
    Values.lookup (ToURLValues (some { exampleRequest with ErrorCorrection := LevelH })).1
      "error_correction" = ["H"] ∧
    Values.lookup (ToURLValues (some { exampleRequest with EyePattern := TLBRLeaf })).1
      "eye_pattern" = ["TRBR_LEAF"] :=
  ⟨(enum_constant_serialized exampleRequest).2.1 (XXLSize, "xxl") (by decide) (Or.inl rfl),
   (enum_constant_serialized colourRequest).1 (XXXLSize, "xxxl") (by decide),
   (enum_constant_serialized exampleRequest).2.2.1 (LevelH, "H") (by decide),
   (enum_constant_serialized exampleRequest).2.2.2 (TLBRLeaf, "TRBR_LEAF") (by decide)⟩

/-- C6. The key `eye_color_inner` serves both eye colours: a request whose
InnerEyeColor is a non-empty string c, and likewise a request whose
OuterEyeColor is a non-empty string c, is serialized to query values that
contain the key `eye_color_inner` carrying c. -/
theorem eye_color_inner_carries_both (r : Request) (c : String) (hc : c ≠ "") :
    (r.InnerEyeColor = c →
      Values.Has (ToURLValues (some r)).1 "eye_color_inner" = true ∧
      c ∈ Values.lookup (ToURLValues (some r)).1 "eye_color_inner") ∧
    (r.OuterEyeColor = c →
      Values.Has (ToURLValues (some r)).1 "eye_color_inner" = true ∧
      c ∈ Values.lookup (ToURLValues (some r)).1 "eye_color_inner") := by
  rw [lookup_eye_color_inner, Has_eye_color_inner]
  constructor
  · intro h
    subst h
    simp [hc]
  · intro h
    subst h
    simp [hc]

theorem eye_color_inner_carries_both_witness :
    "red" ∈ Values.lookup (ToURLValues (some colourRequest)).1 "eye_color_inner" ∧
    "blue" ∈ Values.lookup (ToURLValues (some colourRequest)).1 "eye_color_inner" :=
  ⟨((eye_color_inner_carries_both colourRequest "red" (by decide)).1 rfl).2,
   ((eye_color_inner_carries_both colourRequest "blue" (by decide)).2 rfl).2⟩

/-! ## Strings and streams -/

theorem length_eq_zero_iff (s : String) : s.length = 0 ↔ s = "" := by
  constructor
  · intro h
    apply String.ext
    have h1 : s.data.length = 0 := h
    exact List.length_eq_zero.mp h1
  · intro h
    subst h
    rfl

theorem mk_take_append_drop (s : String) (n : Nat) :
    String.mk (s.toList.take n) ++ String.mk (s.toList.drop n) = s := by
  apply String.ext
  simp [String.data_append]

theorem length_mk_drop (s : String) (n : Nat) :
    (String.mk (s.toList.drop n)).length = s.length - n :=
  List.length_drop n s.data

/-- Draining a stub body yields what is left of its content, whatever the
buffer lengths, provided they are positive. -/
theorem ReadAll_nopCloserFrom (bufLen : Nat → Nat) (hpos : ∀ k, 0 < bufLen k) (k : Nat) :
    ∀ (rest b : String) (cl : Bool), rest.length ≤ k →
      ReadAll bufLen (k + 1) (nopCloserFrom { rest := rest, closed := cl }) b =
        some ((b ++ rest, none), nopCloserFrom { rest := "", closed := cl }) := by
  induction k with
  | zero =>
    intro rest b cl h
    have h0 : rest = "" := (length_eq_zero_iff rest).mp (by omega)
    subst h0
    simp [ReadAll, ReadCloser.Read, nopCloserFrom]
  | succ k ih =>
    intro rest b cl h
    by_cases h0 : rest.length = 0
    · have h1 : rest = "" := (length_eq_zero_iff rest).mp h0
      subst h1
      simp [ReadAll, ReadCloser.Read, nopCloserFrom]
    · have hlen : (String.mk (rest.toList.drop (bufLen b.length))).length ≤ k := by
        rw [length_mk_drop]
        have := hpos b.length
        omega
      have step := ih (String.mk (rest.toList.drop (bufLen b.length)))
        (b ++ String.mk (rest.toList.take (bufLen b.length))) cl hlen
      rw [String.append_assoc, mk_take_append_drop] at step
      rw [← step]
      conv_lhs => unfold ReadAll
      simp [ReadCloser.Read, nopCloserFrom, h0]

/-- A stub body with content `B` drains to exactly `B`. -/
theorem ReadAll_nopCloserBody (bufLen : Nat → Nat) (hpos : ∀ k, 0 < bufLen k) (B : String) :
    ReadAll bufLen (B.length + 1) (nopCloserBody B) "" =
      some ((B, none), nopCloserFrom { rest := "", closed := false }) := by
  have h := ReadAll_nopCloserFrom bufLen hpos B.length B "" false (Nat.le_refl _)
  rw [String.empty_append] at h
  exact h

/-- Draining a Response through its own `Read` collects what draining its
underlying stream collects. -/
theorem ReadAll_toReadCloser {σ : Type} (bufLen : Nat → Nat) (fuel : Nat) :
    ∀ (r : Response σ) (b : String),
      (ReadAll bufLen fuel r.toReadCloser b).map Prod.fst =
        (ReadAll bufLen fuel r.rc b).map Prod.fst := by
  induction fuel with
  | zero => intro r b; rfl
  | succ k ih =>
    intro r b
    have key : ∀ n, r.toReadCloser.Read n =
        ((r.rc.Read n).1, Response.toReadCloser { r with rc := (r.rc.Read n).2 }) := by
      intro n; rfl
    unfold ReadAll
    rw [key]
    generalize hq : r.rc.Read (bufLen b.length) = q
    obtain ⟨⟨p, e⟩, rc'⟩ := q
    cases e with
    | none => simpa using ih { r with rc := rc' } (b ++ p)
    | some e => cases e <;> simp

/-! ## The four exits of `NewQR` -/

theorem statusOK_iff (code : Int) : statusOK code = true ↔ 200 ≤ code ∧ code ≤ 299 := by
  simp [statusOK]

theorem NewQR_encode_error {σ : Type} (env : Env σ) (fuel : Nat) (c : Client σ)
    (req : Option Request) (v : Values) (err : GoError)
    (henc : ToURLValues req = (v, some err)) :
    c.NewQR env fuel req = some (none, some err) := by
  simp [Client.NewQR, henc]

theorem NewQR_get_error {σ : Type} (env : Env σ) (fuel : Nat) (c : Client σ)
    (req : Option Request) (v : Values) (err : GoError)
    (henc : ToURLValues req = (v, none))
    (hget : (c.httpClient env).Get env (baseURL ++ "/qrcode/url?" ++ v.Encode) = .error err) :
    c.NewQR env fuel req = some (none, some err) := by
  simp [Client.NewQR, henc, hget]

theorem NewQR_status_ok {σ : Type} (env : Env σ) (fuel : Nat) (c : Client σ)
    (req : Option Request) (v : Values) (res : HTTPResponse σ)
    (henc : ToURLValues req = (v, none))
    (hget : (c.httpClient env).Get env (baseURL ++ "/qrcode/url?" ++ v.Encode) = .ok res)
    (hs : statusOK res.StatusCode = true) :
    c.NewQR env fuel req = some (some { rc := res.Body, headers := res.Header }, none) := by
  simp [Client.NewQR, henc, hget, hs]

theorem NewQR_status_bad {σ : Type} (env : Env σ) (fuel : Nat) (c : Client σ)
    (req : Option Request) (v : Values) (res : HTTPResponse σ)
    (slurp : String) (e : Option GoError) (rc' : ReadCloser σ)
    (henc : ToURLValues req = (v, none))
    (hget : (c.httpClient env).Get env (baseURL ++ "/qrcode/url?" ++ v.Encode) = .ok res)
    (hs : statusOK res.StatusCode = false)
    (hbody : ReadAll env.bufLen fuel res.Body "" = some ((slurp, e), rc')) :
    c.NewQR env fuel req =
      some (none, some (GoError.New (if slurp = "" then res.Status else slurp))) := by
  by_cases h : slurp = ""
  · simp [Client.NewQR, henc, hget, hs, hbody, h]
  · have h0 : ¬ slurp.length = 0 := fun h' => h ((length_eq_zero_iff slurp).mp h')
    simp [Client.NewQR, henc, hget, hs, hbody, h]
    intro h'
    exact absurd h' h0

theorem NewQR_status_bad_none {σ : Type} (env : Env σ) (fuel : Nat) (c : Client σ)
    (req : Option Request) (v : Values) (res : HTTPResponse σ)
    (henc : ToURLValues req = (v, none))
    (hget : (c.httpClient env).Get env (baseURL ++ "/qrcode/url?" ++ v.Encode) = .ok res)
    (hs : statusOK res.StatusCode = false)
    (hbody : ReadAll env.bufLen fuel res.Body "" = none) :
    c.NewQR env fuel req = none := by
  simp [Client.NewQR, henc, hget, hs, hbody]

/-! ## The HTTP client -/

theorem doFrom_of_transport_error {σ : Type} (env : Env σ) (h : HTTPClient σ) (left : Nat)
    (r : HTTPRequest) (err : GoError) (ht : h.Transport r = .error err) :
    h.doFrom env left r = .error (.URLError "Get" r.URL err) := by
  unfold HTTPClient.doFrom
  rw [ht]

theorem doFrom_of_not_followed {σ : Type} (env : Env σ) (h : HTTPClient σ) (left : Nat)
    (r : HTTPRequest) (res : HTTPResponse σ) (ht : h.Transport r = .ok res)
    (hn : redirectBehavior res.StatusCode = false ∨ Header.Get res.Header "Location" = "") :
    h.doFrom env left r = .ok res := by
  unfold HTTPClient.doFrom
  rw [ht]
  have hc : ¬ (redirectBehavior res.StatusCode = true ∧
      Header.Get res.Header "Location" ≠ "") := by
    rintro ⟨h1, h2⟩
    rcases hn with h3 | h3
    · rw [h3] at h1
      exact Bool.noConfusion h1
    · exact h2 h3
  simp only [hc, if_false]

/-- The default transport of the runtime has no part in the loop. -/
theorem doFrom_DefaultTransport {σ : Type} (env : Env σ) (dflt : RoundTripper σ)
    (h : HTTPClient σ) :
    ∀ (left : Nat) (r : HTTPRequest),
      h.doFrom { env with DefaultTransport := dflt } left r = h.doFrom env left r := by
  intro left
  induction left with
  | zero =>
    intro r
    unfold HTTPClient.doFrom
    rfl
  | succ n ih =>
    intro r
    unfold HTTPClient.doFrom
    simp only [ih]

/-- A failed first round trip is what `Get` returns, wrapped. -/
theorem Get_of_transport_error {σ : Type} (env : Env σ) (h : HTTPClient σ) (url : String)
    (err : GoError) (ht : h.Transport { Method := "GET", URL := url } = .error err) :
    h.Get env url = .error (.URLError "Get" url err) :=
  doFrom_of_transport_error env h 9 _ err ht

/-- An answer that is not a redirect with a Location is what `Get` returns. -/
theorem Get_of_not_followed {σ : Type} (env : Env σ) (h : HTTPClient σ) (url : String)
    (res : HTTPResponse σ) (ht : h.Transport { Method := "GET", URL := url } = .ok res)
    (hn : redirectBehavior res.StatusCode = false ∨ Header.Get res.Header "Location" = "") :
    h.Get env url = .ok res :=
  doFrom_of_not_followed env h 9 _ res ht hn

theorem redirectBehavior_of_statusOK (code : Int) (h : statusOK code = true) :
    redirectBehavior code = false := by
  have h' := (statusOK_iff code).mp h
  simp only [redirectBehavior, Bool.or_eq_false_iff, decide_eq_false_iff_not]
  omega

/-- A client fresh from `NewClient` has no transport of its own and sends
through the default transport. -/
theorem NewClient_uses_DefaultTransport {σ : Type} (env : Env σ) :
    ∃ c : Client σ, NewClient σ = (some c, none) ∧
      (c.httpClient env).Transport = env.DefaultTransport :=
  ⟨_, rfl, rfl⟩

/-! ## Claims about the client -/

/-- C1, as stated, fails: the transport stub answers the request of NewQR
(and every later one) with status 302, a Location and the body `moved`; the
HTTP client follows the redirects, and the error that NewQR returns is the one
of the redirect policy, neither the body text nor the status text. -/
theorem redirect_answer_is_not_the_error :
    redirectTransport "https://example.org/next"
        { Method := "GET",
          URL := baseURL ++ "/qrcode/url?" ++ (ToURLValues (some exampleRequest)).1.Encode } =
      .ok { Status := "302 Found", StatusCode := 302,
            Header := [("Location", ["https://example.org/next"])],
            Body := nopCloserBody "moved" } ∧
    (stubClient (redirectTransport "https://example.org/next")).NewQR stubEnv 2
        (some exampleRequest) =
      some (none, some (.URLError "Get" "https://example.org/next"
        (.New "stopped after 10 redirects"))) ∧
    (GoError.URLError "Get" "https://example.org/next"
        (.New "stopped after 10 redirects")).Error ≠ "moved" ∧
    (GoError.URLError "Get" "https://example.org/next"
        (.New "stopped after 10 redirects")).Error ≠ "302 Found" :=
  ⟨rfl, rfl, by decide, by decide⟩

/-- C1, amended. For every response that reaches NewQR from the HTTP client
with a status code outside [200,299], NewQR returns no Response and an error
whose message is exactly the text drained from the response body when that
text is non-empty, and exactly the status text of the response when the body
is empty. The response that reaches NewQR is the answer of the transport
unless that answer has status 301, 302, 303, 307 or 308 and a Location, which
the HTTP client follows with a further request. -/
theorem NewQR_remote_error_message {σ : Type} (env : Env σ) (fuel : Nat) (c : Client σ)
    (req : Option Request) (v : Values) (res : HTTPResponse σ)
    (slurp : String) (e : Option GoError) (rc' : ReadCloser σ)
    (henc : ToURLValues req = (v, none))
    (hcode : ¬ (200 ≤ res.StatusCode ∧ res.StatusCode ≤ 299))
    (hbody : ReadAll env.bufLen fuel res.Body "" = some ((slurp, e), rc')) :
    ((c.httpClient env).Get env (baseURL ++ "/qrcode/url?" ++ v.Encode) = .ok res →
      ∃ err, c.NewQR env fuel req = some (none, some err) ∧
        (slurp ≠ "" → err.Error = slurp) ∧ (slurp = "" → err.Error = res.Status)) ∧
    ((c.httpClient env).Transport
        { Method := "GET", URL := baseURL ++ "/qrcode/url?" ++ v.Encode } = .ok res →
      (redirectBehavior res.StatusCode = false ∨ Header.Get res.Header "Location" = "") →
      ∃ err, c.NewQR env fuel req = some (none, some err) ∧
        (slurp ≠ "" → err.Error = slurp) ∧ (slurp = "" → err.Error = res.Status)) := by
  have hs : statusOK res.StatusCode = false := by
    cases h : statusOK res.StatusCode
    · rfl
    · exact absurd ((statusOK_iff _).mp h) hcode
  have main : (c.httpClient env).Get env (baseURL ++ "/qrcode/url?" ++ v.Encode) = .ok res →
      ∃ err, c.NewQR env fuel req = some (none, some err) ∧
        (slurp ≠ "" → err.Error = slurp) ∧ (slurp = "" → err.Error = res.Status) := by
    intro hget
    refine ⟨_, NewQR_status_bad env fuel c req v res slurp e rc' henc hget hs hbody, ?_, ?_⟩
    · intro h
      simp [GoError.Error, h]
    · intro h
      simp [GoError.Error, h]
  exact ⟨main, fun ht hn => main (Get_of_not_followed env _ _ res ht hn)⟩

theorem NewQR_remote_error_message_witness :
    (∃ err, (stubClient (stubTransport "404 Not Found" 404 [] "not found")).NewQR stubEnv 2
        (some exampleRequest) = some (none, some err) ∧
      ("not found" ≠ "" → err.Error = "not found") ∧
      ("not found" = "" → err.Error = "404 Not Found")) ∧
    (∃ err, (stubClient (stubTransport "500 Internal Server Error" 500 [] "")).NewQR stubEnv 1
        (some exampleRequest) = some (none, some err) ∧
      ("" ≠ "" → err.Error = "") ∧
      ("" = "" → err.Error = "500 Internal Server Error")) :=
  ⟨(NewQR_remote_error_message stubEnv 2
      (stubClient (stubTransport "404 Not Found" 404 [] "not found"))
      (some exampleRequest) (ToURLValues (some exampleRequest)).1
      { Status := "404 Not Found", StatusCode := 404, Header := [],
        Body := nopCloserBody "not found" }
      "not found" none (nopCloserFrom { rest := "", closed := false })
      rfl (by decide) rfl).2 rfl (Or.inl rfl),
   (NewQR_remote_error_message stubEnv 1
      (stubClient (stubTransport "500 Internal Server Error" 500 [] ""))
      (some exampleRequest) (ToURLValues (some exampleRequest)).1
      { Status := "500 Internal Server Error", StatusCode := 500, Header := [],
        Body := nopCloserBody "" }
      "" none (nopCloserFrom { rest := "", closed := false })
      rfl (by decide) rfl).1 rfl⟩

/-- C2, as stated, fails: the transport stub answers the request of NewQR
with status 302 and a Location, without a transport error, and answers the
request for that location with 200; NewQR follows and returns a Response and
no error, although the status of the first answer is outside [200,299]. -/
theorem redirect_answer_can_succeed :
    hopTransport "https://cdn.example.org/qr.png" "PNG"
        { Method := "GET",
          URL := baseURL ++ "/qrcode/url?" ++ (ToURLValues (some exampleRequest)).1.Encode } =
      .ok { Status := "302 Found", StatusCode := 302,
            Header := [("Location", ["https://cdn.example.org/qr.png"])],
            Body := nopCloserBody "moved" } ∧
    (stubClient (hopTransport "https://cdn.example.org/qr.png" "PNG")).NewQR stubEnv 0
        (some exampleRequest) =
      some (some { rc := nopCloserBody "PNG", headers := [] }, none) :=
  ⟨rfl, rfl⟩

/-- C2, amended. For a request that encodes and a response that reaches NewQR
from the HTTP client without an error, NewQR fails exactly when the status
code of that response is outside [200,299]: statusOK holds exactly on
200..299 (199 and 300 fail, 200 and 299 pass); a status inside makes NewQR
return the Response and no error, for any fuel; a status outside makes it
return an error as soon as the body is drained; and whatever NewQR returns,
the error is non-nil exactly when the status is outside the range. The
response that reaches NewQR is the answer of the transport unless that answer
has status 301, 302, 303, 307 or 308 and a Location, which is followed. -/
theorem NewQR_fails_iff_status_outside {σ : Type} (env : Env σ) (fuel : Nat) (c : Client σ)
    (req : Option Request) (v : Values) (res : HTTPResponse σ)
    (henc : ToURLValues req = (v, none))
    (hget : (c.httpClient env).Get env (baseURL ++ "/qrcode/url?" ++ v.Encode) = .ok res) :
    (∀ code : Int, statusOK code = true ↔ 200 ≤ code ∧ code ≤ 299) ∧
    (statusOK 199 = false ∧ statusOK 200 = true ∧ statusOK 299 = true ∧ statusOK 300 = false) ∧
    (200 ≤ res.StatusCode ∧ res.StatusCode ≤ 299 →
      c.NewQR env fuel req = some (some { rc := res.Body, headers := res.Header }, none)) ∧
    (¬ (200 ≤ res.StatusCode ∧ res.StatusCode ≤ 299) →
      ∀ out, ReadAll env.bufLen fuel res.Body "" = some out →
        ∃ err, c.NewQR env fuel req = some (none, some err)) ∧
    (∀ r err, c.NewQR env fuel req = some (r, err) →
      (err ≠ none ↔ ¬ (200 ≤ res.StatusCode ∧ res.StatusCode ≤ 299))) ∧
    (∀ ans : HTTPResponse σ,
      (c.httpClient env).Transport
          { Method := "GET", URL := baseURL ++ "/qrcode/url?" ++ v.Encode } = .ok ans →
      (redirectBehavior ans.StatusCode = false ∨ Header.Get ans.Header "Location" = "") →
      (c.httpClient env).Get env (baseURL ++ "/qrcode/url?" ++ v.Encode) = .ok ans) := by
  refine ⟨statusOK_iff, by decide, ?_, ?_, ?_, ?_⟩
  · intro h
    exact NewQR_status_ok env fuel c req v res henc hget ((statusOK_iff _).mpr h)
  · intro h out hout
    have hs : statusOK res.StatusCode = false := by
      cases h' : statusOK res.StatusCode
      · rfl
      · exact absurd ((statusOK_iff _).mp h') h
    obtain ⟨⟨slurp, e⟩, rc'⟩ := out
    exact ⟨_, NewQR_status_bad env fuel c req v res slurp e rc' henc hget hs hout⟩
  · intro r err hret
    cases hs : statusOK res.StatusCode
    · have hout : ¬ (200 ≤ res.StatusCode ∧ res.StatusCode ≤ 299) := by
        intro h
        rw [(statusOK_iff _).mpr h] at hs
        exact Bool.noConfusion hs
      cases hb : ReadAll env.bufLen fuel res.Body "" with
      | none =>
        rw [NewQR_status_bad_none env fuel c req v res henc hget hs hb] at hret
        exact Option.noConfusion hret
      | some out =>
        obtain ⟨⟨slurp, e⟩, rc'⟩ := out
        rw [NewQR_status_bad env fuel c req v res slurp e rc' henc hget hs hb] at hret
        simp only [Option.some.injEq, Prod.mk.injEq] at hret
        rw [← hret.2]
        simp [hout]
    · have hin := (statusOK_iff _).mp hs
      rw [NewQR_status_ok env fuel c req v res henc hget hs] at hret
      simp only [Option.some.injEq, Prod.mk.injEq] at hret
      rw [← hret.2]
      simp [hin]
  · intro ans ht hn
    exact Get_of_not_followed env _ _ ans ht hn

theorem NewQR_fails_iff_status_outside_witness :
    ∃ err, (stubClient (stubTransport "300 Multiple Choices" 300 [] "")).NewQR stubEnv 1
      (some exampleRequest) = some (none, some err) :=
  (NewQR_fails_iff_status_outside stubEnv 1
      (stubClient (stubTransport "300 Multiple Choices" 300 [] ""))
      (some exampleRequest) (ToURLValues (some exampleRequest)).1
      { Status := "300 Multiple Choices", StatusCode := 300, Header := [],
        Body := nopCloserBody "" }
      rfl rfl).2.2.2.1 (by decide) _ rfl

/-- C3. When the response that comes back has status 200, headers H and a
body that reads to end-of-stream as B, NewQR returns a Response and no error;
reading that Response to end-of-stream yields exactly B, and Headers() is
exactly H. -/
theorem NewQR_success_passes_body_and_headers {σ : Type} (env : Env σ) (fuel : Nat)
    (c : Client σ) (req : Option Request) (v : Values) (res : HTTPResponse σ)
    (bufLen : Nat → Nat) (fuelB : Nat) (B : String) (H : Header) (rc' : ReadCloser σ)
    (henc : ToURLValues req = (v, none))
    (hget : (c.httpClient env).Get env (baseURL ++ "/qrcode/url?" ++ v.Encode) = .ok res)
    (hcode : res.StatusCode = 200) (hH : res.Header = H)
    (hB : ReadAll bufLen fuelB res.Body "" = some ((B, none), rc')) :
    ∃ r : Response σ, c.NewQR env fuel req = some (some r, none) ∧
      r.Headers = H ∧
      (ReadAll bufLen fuelB r.toReadCloser "").map Prod.fst = some (B, none) := by
  have hs : statusOK res.StatusCode = true := by rw [hcode]; decide
  refine ⟨{ rc := res.Body, headers := res.Header },
    NewQR_status_ok env fuel c req v res henc hget hs, hH, ?_⟩
  rw [ReadAll_toReadCloser]
  show (ReadAll bufLen fuelB res.Body "").map Prod.fst = some (B, none)
  rw [hB]
  rfl

theorem NewQR_success_passes_body_and_headers_witness :
    ∃ r : Response StubState,
      (stubClient (stubTransport "200 OK" 200 [("Content-Type", ["image/png"])] "PNG bytes")).NewQR
        stubEnv 0 (some exampleRequest) = some (some r, none) ∧
      r.Headers = [("Content-Type", ["image/png"])] ∧
      (ReadAll (fun _ => 4) 10 r.toReadCloser "").map Prod.fst = some ("PNG bytes", none) :=
  NewQR_success_passes_body_and_headers stubEnv 0
    (stubClient (stubTransport "200 OK" 200 [("Content-Type", ["image/png"])] "PNG bytes"))
    (some exampleRequest) (ToURLValues (some exampleRequest)).1
    { Status := "200 OK", StatusCode := 200, Header := [("Content-Type", ["image/png"])],
      Body := nopCloserBody "PNG bytes" }
    (fun _ => 4) 10 "PNG bytes" [("Content-Type", ["image/png"])]
    (nopCloserFrom { rest := "", closed := false })
    rfl rfl rfl rfl (ReadAll_nopCloserBody (fun _ => 4) (fun _ => Nat.succ_pos 3) "PNG bytes")

/-- C7. For a request that encodes to the query string q, NewQR issues its GET
to exactly `https://api.scanova.io/v2/qrcode/url?` followed by q, with
nothing else added: a transport that reports the request it is asked with
reports that method and that URL, whatever the API key of the client; and
for every client, a transport that fails, or answers with a status in
[200,299], at exactly that request decides the outcome of NewQR. -/
theorem NewQR_requests_baseURL_qrcode_url {σ : Type} (env : Env σ) (fuel : Nat)
    (req : Option Request) (v : Values) (henc : ToURLValues req = (v, none)) :
    (∀ (envS : Env StubState) (key : String),
      Client.NewQR envS fuel { apiKey := key, rt := some echoTransport } req =
        some (some { rc := nopCloserBody "",
                     headers := [("X-Request",
                       ["GET", "https://api.scanova.io/v2/qrcode/url?" ++ v.Encode])] }, none)) ∧
    (∀ (c : Client σ) (err : GoError),
      (c.httpClient env).Transport
          { Method := "GET", URL := "https://api.scanova.io/v2/qrcode/url?" ++ v.Encode } =
        .error err →
      c.NewQR env fuel req =
        some (none, some (.URLError "Get"
          ("https://api.scanova.io/v2/qrcode/url?" ++ v.Encode) err))) ∧
    (∀ (c : Client σ) (res : HTTPResponse σ),
      (c.httpClient env).Transport
          { Method := "GET", URL := "https://api.scanova.io/v2/qrcode/url?" ++ v.Encode } =
        .ok res →
      statusOK res.StatusCode = true →
      c.NewQR env fuel req = some (some { rc := res.Body, headers := res.Header }, none)) := by
  have hurl : baseURL ++ "/qrcode/url?" = "https://api.scanova.io/v2/qrcode/url?" := by decide
  refine ⟨fun envS key => ?_, fun c err ht => ?_, fun c res ht hs => ?_⟩
  · have hget : (Client.httpClient envS { apiKey := key, rt := some echoTransport }).Get envS
        (baseURL ++ "/qrcode/url?" ++ v.Encode) =
        .ok { Status := "200 OK", StatusCode := 200,
              Header := [("X-Request",
                ["GET", "https://api.scanova.io/v2/qrcode/url?" ++ v.Encode])],
              Body := nopCloserBody "" } := by
      rw [hurl]
      exact Get_of_not_followed envS _ _ _ rfl (Or.inl rfl)
    exact NewQR_status_ok envS fuel _ req v _ henc hget rfl
  · have hget : (c.httpClient env).Get env (baseURL ++ "/qrcode/url?" ++ v.Encode) =
        .error (.URLError "Get" ("https://api.scanova.io/v2/qrcode/url?" ++ v.Encode) err) := by
      rw [hurl]
      exact Get_of_transport_error env _ _ err ht
    exact NewQR_get_error env fuel c req v _ henc hget
  · have hget : (c.httpClient env).Get env (baseURL ++ "/qrcode/url?" ++ v.Encode) =
        .ok res := by
      rw [hurl]
      exact Get_of_not_followed env _ _ res ht (Or.inl (redirectBehavior_of_statusOK _ hs))
    exact NewQR_status_ok env fuel c req v res henc hget hs

theorem NewQR_requests_baseURL_qrcode_url_witness :
    Client.NewQR stubEnv 0 { apiKey := "secret", rt := some echoTransport } (some exampleRequest) =
      some (some { rc := nopCloserBody "",
                   headers := [("X-Request",
                     ["GET", "https://api.scanova.io/v2/qrcode/url?" ++
                        (ToURLValues (some exampleRequest)).1.Encode])] }, none) :=
  (NewQR_requests_baseURL_qrcode_url stubEnv 0 (some exampleRequest)
    (ToURLValues (some exampleRequest)).1 rfl).1 stubEnv "secret"

theorem exampleRequest_Encode :
    (ToURLValues (some exampleRequest)).1.Encode =
      "error_correction=Q&eye_pattern=CIRC_CIRC&size=l&url=https%3A%2F%2Fgithub.com%2Forijtech%2Fscanova" := by
  decide

/-- C8. After SetHTTPRoundTripper(t) with t non-nil, whatever the client was
before, httpClient() returns an HTTP client whose Transport is t, and the next
NewQR executes its request through t: what NewQR returns is decided by what
an HTTP client over t returns for the GET (its error, its Response on a
status in [200,299], the drained body or status text otherwise), the first
round trip being the answer of t itself; neither the transport set before
nor the default transport has a part in it. -/
theorem SetHTTPRoundTripper_then_NewQR_uses_it {σ : Type} (env : Env σ) (fuel : Nat)
    (c : Client σ) (t : RoundTripper σ) (req : Option Request) (v : Values)
    (henc : ToURLValues req = (v, none)) :
    ((c.SetHTTPRoundTripper (some t)).httpClient env).Transport = t ∧
    (∀ err, HTTPClient.Get env { Transport := t } (baseURL ++ "/qrcode/url?" ++ v.Encode) =
        .error err →
      (c.SetHTTPRoundTripper (some t)).NewQR env fuel req = some (none, some err)) ∧
    (∀ res, HTTPClient.Get env { Transport := t } (baseURL ++ "/qrcode/url?" ++ v.Encode) =
        .ok res →
      statusOK res.StatusCode = true →
      (c.SetHTTPRoundTripper (some t)).NewQR env fuel req =
        some (some { rc := res.Body, headers := res.Header }, none)) ∧
    (∀ res slurp e rc',
      HTTPClient.Get env { Transport := t } (baseURL ++ "/qrcode/url?" ++ v.Encode) = .ok res →
      statusOK res.StatusCode = false →
      ReadAll env.bufLen fuel res.Body "" = some ((slurp, e), rc') →
      (c.SetHTTPRoundTripper (some t)).NewQR env fuel req =
        some (none, some (GoError.New (if slurp = "" then res.Status else slurp)))) ∧
    (∀ err, t { Method := "GET", URL := baseURL ++ "/qrcode/url?" ++ v.Encode } = .error err →
      (c.SetHTTPRoundTripper (some t)).NewQR env fuel req =
        some (none, some (.URLError "Get" (baseURL ++ "/qrcode/url?" ++ v.Encode) err))) ∧
    (∀ res, t { Method := "GET", URL := baseURL ++ "/qrcode/url?" ++ v.Encode } = .ok res →
      statusOK res.StatusCode = true →
      (c.SetHTTPRoundTripper (some t)).NewQR env fuel req =
        some (some { rc := res.Body, headers := res.Header }, none)) ∧
    (∀ (old : Option (RoundTripper σ)) (dflt : RoundTripper σ),
      (({ c with rt := old } : Client σ).SetHTTPRoundTripper (some t)).NewQR
          { env with DefaultTransport := dflt } fuel req =
        (c.SetHTTPRoundTripper (some t)).NewQR env fuel req) := by
  refine ⟨rfl, fun err hg => ?_, fun res hg hs => ?_, fun res slurp e rc' hg hs hb => ?_,
    fun err ht => ?_, fun res ht hs => ?_, fun old dflt => ?_⟩
  · exact NewQR_get_error env fuel _ req v err henc hg
  · exact NewQR_status_ok env fuel _ req v res henc hg hs
  · exact NewQR_status_bad env fuel _ req v res slurp e rc' henc hg hs hb
  · exact NewQR_get_error env fuel _ req v _ henc
      (Get_of_transport_error env { Transport := t } _ err ht)
  · exact NewQR_status_ok env fuel _ req v res henc
      (Get_of_not_followed env { Transport := t } _ res ht
        (Or.inl (redirectBehavior_of_statusOK _ hs))) hs
  · have hd := doFrom_DefaultTransport env dflt { Transport := t } 9
      { Method := "GET", URL := baseURL ++ "/qrcode/url?" ++ v.Encode }
    simp only [Client.NewQR, HTTPClient.Get, Client.httpClient, Client.SetHTTPRoundTripper, henc, hd]

theorem SetHTTPRoundTripper_then_NewQR_uses_it_witness :
    ((stubClient (failingTransport "old")).SetHTTPRoundTripper (some echoTransport)).NewQR
        stubEnv 0 (some exampleRequest) =
      some (some { rc := nopCloserBody "",
                   headers := [("X-Request",
                     ["GET", baseURL ++ "/qrcode/url?" ++
                        (ToURLValues (some exampleRequest)).1.Encode])] }, none) ∧
    ((stubClient echoTransport).SetHTTPRoundTripper
        (some (failingTransport "new"))).NewQR stubEnv 0 (some exampleRequest) =
      some (none, some (.URLError "Get"
        (baseURL ++ "/qrcode/url?" ++ (ToURLValues (some exampleRequest)).1.Encode)
        (.New "new"))) :=
  ⟨(SetHTTPRoundTripper_then_NewQR_uses_it stubEnv 0 (stubClient (failingTransport "old"))
      echoTransport (some exampleRequest) (ToURLValues (some exampleRequest)).1 rfl).2.2.2.2.2.1
      { Status := "200 OK", StatusCode := 200,
        Header := [("X-Request",
          ["GET", baseURL ++ "/qrcode/url?" ++ (ToURLValues (some exampleRequest)).1.Encode])],
        Body := nopCloserBody "" } rfl rfl,
   (SetHTTPRoundTripper_then_NewQR_uses_it stubEnv 0 (stubClient echoTransport)
      (failingTransport "new") (some exampleRequest)
      (ToURLValues (some exampleRequest)).1 rfl).2.2.2.2.1 (.New "new") rfl⟩

/-- C9. NewQR swallows no failure and builds no Response on a failure path:
an encoding failure and a transport failure are returned as they are, and a
status outside [200,299] is returned as an error once the body is drained,
each with a nil Response; and whatever NewQR returns, exactly one of the
Response and the error is non-nil. -/
theorem NewQR_exactly_one_result {σ : Type} (env : Env σ) (fuel : Nat) (c : Client σ)
    (req : Option Request) :
    (∀ v err, ToURLValues req = (v, some err) →
      c.NewQR env fuel req = some (none, some err)) ∧
    (∀ v err, ToURLValues req = (v, none) →
      (c.httpClient env).Get env (baseURL ++ "/qrcode/url?" ++ v.Encode) = .error err →
      c.NewQR env fuel req = some (none, some err)) ∧
    (∀ v res out, ToURLValues req = (v, none) →
      (c.httpClient env).Get env (baseURL ++ "/qrcode/url?" ++ v.Encode) = .ok res →
      ¬ (200 ≤ res.StatusCode ∧ res.StatusCode ≤ 299) →
      ReadAll env.bufLen fuel res.Body "" = some out →
      ∃ err, c.NewQR env fuel req = some (none, some err)) ∧
    (∀ r err, c.NewQR env fuel req = some (r, err) →
      (r = none ∧ err ≠ none) ∨ (r ≠ none ∧ err = none)) := by
  refine ⟨fun v err h => NewQR_encode_error env fuel c req v err h,
    fun v err h hg => NewQR_get_error env fuel c req v err h hg, ?_, ?_⟩
  · intro v res out henc hget hcode hout
    have hs : statusOK res.StatusCode = false := by
      cases h' : statusOK res.StatusCode
      · rfl
      · exact absurd ((statusOK_iff _).mp h') hcode
    obtain ⟨⟨slurp, e⟩, rc'⟩ := out
    exact ⟨_, NewQR_status_bad env fuel c req v res slurp e rc' henc hget hs hout⟩
  · intro r err hret
    generalize henc : ToURLValues req = enc at hret
    obtain ⟨v, eerr⟩ := enc
    cases eerr with
    | some e0 =>
      rw [NewQR_encode_error env fuel c req v e0 henc] at hret
      simp only [Option.some.injEq, Prod.mk.injEq] at hret
      left
      rw [← hret.1, ← hret.2]
      simp
    | none =>
      cases hget : (c.httpClient env).Get env (baseURL ++ "/qrcode/url?" ++ v.Encode) with
      | error e1 =>
        rw [NewQR_get_error env fuel c req v e1 henc hget] at hret
        simp only [Option.some.injEq, Prod.mk.injEq] at hret
        left
        rw [← hret.1, ← hret.2]
        simp
      | ok res =>
        cases hs : statusOK res.StatusCode
        · cases hb : ReadAll env.bufLen fuel res.Body "" with
          | none =>
            rw [NewQR_status_bad_none env fuel c req v res henc hget hs hb] at hret
            exact Option.noConfusion hret
          | some out =>
            obtain ⟨⟨slurp, e⟩, rc'⟩ := out
            rw [NewQR_status_bad env fuel c req v res slurp e rc' henc hget hs hb] at hret
            simp only [Option.some.injEq, Prod.mk.injEq] at hret
            left
            rw [← hret.1, ← hret.2]
            simp
        · rw [NewQR_status_ok env fuel c req v res henc hget hs] at hret
          simp only [Option.some.injEq, Prod.mk.injEq] at hret
          right
          rw [← hret.1, ← hret.2]
          simp

theorem NewQR_exactly_one_result_witness :
    (stubClient echoTransport).NewQR stubEnv 0 none =
        some (none, some (GoError.New "invalid value")) ∧
    (stubClient (failingTransport "dial tcp: connection refused")).NewQR stubEnv 0
        (some exampleRequest) =
      some (none, some (.URLError "Get"
        (baseURL ++ "/qrcode/url?" ++ (ToURLValues (some exampleRequest)).1.Encode)
        (.New "dial tcp: connection refused"))) ∧
    (∃ err, (stubClient (stubTransport "404 Not Found" 404 [] "not found")).NewQR stubEnv 2
        (some exampleRequest) = some (none, some err)) :=
  ⟨(NewQR_exactly_one_result stubEnv 0 (stubClient echoTransport) none).1 [] _ rfl,
   (NewQR_exactly_one_result stubEnv 0
      (stubClient (failingTransport "dial tcp: connection refused")) (some exampleRequest)).2.1
      (ToURLValues (some exampleRequest)).1 _ rfl rfl,
   (NewQR_exactly_one_result stubEnv 2
      (stubClient (stubTransport "404 Not Found" 404 [] "not found")) (some exampleRequest)).2.2.1
      (ToURLValues (some exampleRequest)).1
      { Status := "404 Not Found", StatusCode := 404, Header := [],
        Body := nopCloserBody "not found" }
      _ rfl rfl (by decide) rfl⟩

/-- C10, as stated, fails: the Response that NewQR returns for a transport
stub whose body is a no-op closer still reads its content after Close(). -/
theorem Read_after_Close_can_succeed :
    (stubClient (stubTransport "200 OK" 200 [] "png")).NewQR stubEnv 0 (some exampleRequest) =
      some (some { rc := nopCloserBody "png", headers := [] }, none) ∧
    ((Response.Close { rc := nopCloserBody "png", headers := [] }).2.Read 512).1 =
      ("png", none) :=
  ⟨rfl, rfl⟩

/-- C10, amended. Read and Close of a Response only delegate to the
underlying body stream: a Read after Close() returns what the Read of the body
returns after its Close; and when the body is one that fails every Read once
closed, every Read of the Response after Close() returns an error. -/
theorem Read_after_Close_follows_body {σ : Type} (r : Response σ) (Closed : σ → Prop)
    (hclose : ∀ s, Closed (r.rc.close s).2)
    (hread : ∀ s n, Closed s → (r.rc.read s n).1.2 ≠ none ∧ Closed (r.rc.read s n).2) :
    (∀ n, ((r.Close).2.Read n).1 = ((r.rc.Close).2.Read n).1) ∧
    (∀ ns : List Nat, ∀ out ∈ readMany (r.Close).2 ns, out.2 ≠ none) := by
  refine ⟨fun n => rfl, ?_⟩
  have main : ∀ (ns : List Nat) (q : Response σ), q.rc.read = r.rc.read → Closed q.rc.state →
      ∀ out ∈ readMany q ns, out.2 ≠ none := by
    intro ns
    induction ns with
    | nil =>
      intro q _ _ out hout
      simp [readMany] at hout
    | cons n ns ih =>
      intro q hq hc out hout
      have hstep := hread q.rc.state n hc
      simp only [readMany, List.mem_cons] at hout
      rcases hout with h | h
      · rw [h]
        show (q.rc.read q.rc.state n).1.2 ≠ none
        rw [hq]
        exact hstep.1
      · refine ih (q.Read n).2 hq ?_ out h
        show Closed (q.rc.read q.rc.state n).2
        rw [hq]
        exact hstep.2
  intro ns
  exact main ns (r.Close).2 rfl (hclose r.rc.state)

theorem Read_after_Close_follows_body_witness :
    (((Response.Close { rc := strictBody "png", headers := [] }).2.Read 512).1.2).isSome = true :=
  Option.ne_none_iff_isSome.mp
    ((Read_after_Close_follows_body { rc := strictBody "png", headers := [] }
      (fun s => s.closed = true) (fun _ => rfl)
      (fun s n h => by simp [strictBody, h])).2 [512] _ (List.mem_cons_self _ _))

end Scanova
